import Mathlib

/-
Verification of the gribs GRIB-to-RPN converter.

Shallow embedding of src/gribs/gribmapper.py, src/gribs/units.py and the
per-message body of src/gribs/gribtorpn.py:convert.  Python floats are
embedded as exact rationals, Python dicts as association lists looked up
with dictGet, and the functions stored in the VARS table (unit converters
and ip1 override methods) as first-order tags dispatched by apply /
run_ip1_func, mirroring Python's getattr dispatch on method names.
External library calls (rmn.convertIp, rmn.fstecr) are modelled at the
interface boundary the spec gives for them; each such definition carries a
doc comment starting with "Modelled from the spec:".
-/

namespace Gribs

/- Level-type string constants, gribmapper.py lines 12-19. -/

def LVL_SFC : String := "surface"

def LVL_ISBL : String := "isobaricInhPa"

def LVL_ISBY : String := "isobaricLayer"

def LVL_TGL : String := "heightAboveGround"

def LVL_DBLL : String := "depthBelowLandLayer"

def LVL_MSL : String := "meanSea"

def LVL_EATM : String := "atmosphere"

def LVL_NTAT : String := "nominalTop"

/- IP kind constants, gribmapper.py lines 21-23. -/

def IP_KIND_SIGMA : Nat := 1

def IP_KIND_PRESSURE : Nat := 2

def IP_KIND_ARBITRARY : Nat := 3

/- Unit conversion functions, units.py.  Floats are embedded as exact
rationals; decimal literals denote the exact decimal value. -/

namespace Unit

def ident (value : ℚ) : ℚ := value

def m_per_s_to_kt (value : ℚ) : ℚ := value * 1.9438

def K_to_C (value : ℚ) : ℚ := value - 273.15

def m_to_cm (value : ℚ) : ℚ := value * 100

def gpm_to_dam (value : ℚ) : ℚ := value * 0.1

def Pa_to_hPa (value : ℚ) : ℚ := value * 0.01

end Unit

/-- First-order names for the static methods of Unit, as stored in the
VARS table ("unit" entries in gribmapper.py). -/
inductive UnitFn where
  | ident
  | m_per_s_to_kt
  | K_to_C
  | m_to_cm
  | gpm_to_dam
  | Pa_to_hPa
deriving DecidableEq, Repr

def UnitFn.apply : UnitFn → ℚ → ℚ
  | .ident => Unit.ident
  | .m_per_s_to_kt => Unit.m_per_s_to_kt
  | .K_to_C => Unit.K_to_C
  | .m_to_cm => Unit.m_to_cm
  | .gpm_to_dam => Unit.gpm_to_dam
  | .Pa_to_hPa => Unit.Pa_to_hPa

/-- Names of the ip1 encoder methods stored in the VARS table ("ip1"
entries, dispatched by getattr in translate_to_rpn). -/
inductive Ip1Func where
  | ip1_from_level
  | ip1_soilw_dbll
  | ip1_snod_sfc
  | ip1_tsoil_dbll
deriving DecidableEq, Repr

/-- One entry of the GribMapper.VARS table: the per-level-type mnemonic
dict, the optional unit converter, the optional per-level-type ip1
override dict. -/
structure VarRule where
  nomvar : List (String × String)
  unit : Option UnitFn := none
  ip1 : List (String × Ip1Func) := []
deriving DecidableEq, Repr

/-- Python dict lookup on an association list (keys are unique in every
dict literal of the source). -/
def dictGet {α : Type} : List (String × α) → String → Option α
  | [], _ => none
  | (k, v) :: rest, key => if key = k then some v else dictGet rest key

/-- GribMapper.VARS, gribmapper.py lines 26-116, transcribed entry by
entry. -/
def VARS : List (String × VarRule) := [
  ("Albedo", { nomvar := [(LVL_SFC, "AL"), (LVL_ISBL, "AL")] }),
  ("Cloud water", { nomvar := [(LVL_SFC, "QC"), (LVL_ISBL, "QC")] }),
  ("Geopotential Height",
    { nomvar := [(LVL_SFC, "GZ"), (LVL_ISBL, "GZ")], unit := some .gpm_to_dam }),
  ("Land-sea mask", { nomvar := [(LVL_SFC, "MQ"), (LVL_ISBL, "MQ")] }),
  ("Orography", { nomvar := [(LVL_SFC, "MX"), (LVL_ISBL, "MX")] }),
  ("Pressure reduced to MSL",
    { nomvar := [(LVL_SFC, "PN"), (LVL_ISBL, "PN")], unit := some .Pa_to_hPa }),
  ("Sea ice area fraction", { nomvar := [(LVL_SFC, "LG"), (LVL_ISBL, "LG")] }),
  ("Sea surface temperature",
    { nomvar := [(LVL_SFC, "TM"), (LVL_ISBL, "TM")], unit := some .K_to_C }),
  ("Skin temperature",
    { nomvar := [(LVL_SFC, "TS"), (LVL_ISBL, "TS")], unit := some .K_to_C }),
  ("Snow density", { nomvar := [(LVL_SFC, "DN"), (LVL_ISBL, "DN")] }),
  ("Snow depth",
    { nomvar := [(LVL_SFC, "SD"), (LVL_ISBL, "SD")], unit := some .m_to_cm,
      ip1 := [(LVL_SFC, .ip1_snod_sfc)] }),
  ("Soil moisture content",
    { nomvar := [(LVL_SFC, "HS"), (LVL_ISBL, "HS"), (LVL_DBLL, "I1")],
      ip1 := [(LVL_DBLL, .ip1_soilw_dbll)] }),
  ("Soil Temperature",
    { nomvar := [(LVL_SFC, "TP"), (LVL_ISBL, "TP"), (LVL_DBLL, "I0")],
      unit := some .K_to_C, ip1 := [(LVL_DBLL, .ip1_tsoil_dbll)] }),
  ("Specific humidity", { nomvar := [(LVL_SFC, "HU"), (LVL_ISBL, "HU")] }),
  ("Surface pressure",
    { nomvar := [(LVL_SFC, "P0"), (LVL_ISBL, "P0")], unit := some .Pa_to_hPa }),
  ("Temperature",
    { nomvar := [(LVL_SFC, "TT"), (LVL_ISBL, "TT")], unit := some .K_to_C }),
  ("U component of wind",
    { nomvar := [(LVL_SFC, "UU"), (LVL_ISBL, "UU")], unit := some .m_per_s_to_kt }),
  ("V component of wind",
    { nomvar := [(LVL_SFC, "VV"), (LVL_ISBL, "VV")], unit := some .m_per_s_to_kt }),
  ("Volumetric soil ice", { nomvar := [(LVL_SFC, "I2"), (LVL_ISBL, "I2")] })
]

/-- The dict {"UNKNOWN": {}} substituted for an unknown variable in
translate_to_rpn has no "nomvar", "unit" or "ip1" key: every lookup in it
raises KeyError, i.e. yields none here. -/
def emptyRule : VarRule := { nomvar := [] }

/-- The fields of one decoded GRIB message that the embedded code reads.
Defaults only ease the construction of concrete messages. -/
structure GribMsg where
  name : String := ""
  typeOfLevel : String := ""
  level : ℚ := 0
  values : List ℚ := []
  Ni : Nat := 0
  Nj : Nat := 0
  scaleFactorOfSecondFixedSurface : Int := 0
  gridDescriptionSectionPresent : Int := 1
  gridDefinitionDescription : String := "Latitude/longitude "
deriving DecidableEq, Repr

/-- State of a GribMapper after from_grib_message plus the mutable flags
set by __init__ / property setters. -/
structure GribMapper where
  msg : GribMsg
  ip_oldstyle : Bool := false
  etiket : String := ""
  verbose : Bool := false
deriving DecidableEq, Repr

/- from_grib_message caches msg["level"], msg["typeOfLevel"], msg["name"]
on the instance; we read them through the message. -/

def GribMapper.level (gm : GribMapper) : ℚ := gm.msg.level

def GribMapper.level_type (gm : GribMapper) : String := gm.msg.typeOfLevel

def GribMapper.gribvar (gm : GribMapper) : String := gm.msg.name

/-- The packed level identifier returned by the external encoder.  The
spec glossary defines it as "a single integer encoding both the
vertical-coordinate kind and its numeric value" under the chosen mode; we
model the packed code as the triple it encodes. -/
structure IpCode where
  mode : Nat
  level : ℚ
  kind : Nat
deriving DecidableEq, Repr

/-- Modelled from the spec: the external rmn.convertIp(mode, level, kind)
call (rpnpy.librmn, not part of this repository) packs a vertical level of
the given kind into a single identifier under the given bit-packing mode;
per the spec's glossary the identifier is an encoding of the kind and the
numeric value, so it is modelled as the argument triple itself. -/
def convertIp (mode : Nat) (level : ℚ) (kind : Nat) : IpCode :=
  { mode := mode, level := level, kind := kind }

/-- GribMapper.get_ip_code: mode 3 when oldstyle, else 2 (NEWSTYLE); the
kind defaults to IP_KIND_ARBITRARY. -/
def GribMapper.get_ip_code (gm : GribMapper) (level : ℚ)
    (kind : Nat := IP_KIND_ARBITRARY) : IpCode :=
  convertIp (if gm.ip_oldstyle then 3 else 2) level kind

/-- GribMapper.ip1_soilw_dbll: the level passed to the encoder is
int(msg["scaleFactorOfSecondFixedSurface"]), not the nominal level. -/
def GribMapper.ip1_soilw_dbll (gm : GribMapper) : Option IpCode :=
  some (gm.get_ip_code (gm.msg.scaleFactorOfSecondFixedSurface : ℚ))

/-- GribMapper.ip1_snod_sfc: fixed sentinel level 1.0. -/
def GribMapper.ip1_snod_sfc (gm : GribMapper) : Option IpCode :=
  some (gm.get_ip_code 1.0)

/-- GribMapper.ip1_tsoil_dbll: fixed sentinel level 1.0 when the level
type is depthBelowLandLayer; otherwise the Python method falls off the end
and returns None. -/
def GribMapper.ip1_tsoil_dbll (gm : GribMapper) : Option IpCode :=
  if gm.level_type = LVL_DBLL then some (gm.get_ip_code 1.0) else none

/-- GribMapper.ip1_from_level, the generic encoder: pressure kind for
0 <= level < 1101, arbitrary kind otherwise. -/
def GribMapper.ip1_from_level (gm : GribMapper) : IpCode :=
  if 0 ≤ gm.level ∧ gm.level < 1101 then
    gm.get_ip_code gm.level IP_KIND_PRESSURE
  else
    gm.get_ip_code gm.level IP_KIND_ARBITRARY

/-- getattr(self, ip1_func)() dispatch in translate_to_rpn. -/
def GribMapper.run_ip1_func (gm : GribMapper) : Ip1Func → Option IpCode
  | .ip1_from_level => some gm.ip1_from_level
  | .ip1_soilw_dbll => gm.ip1_soilw_dbll
  | .ip1_snod_sfc => gm.ip1_snod_sfc
  | .ip1_tsoil_dbll => gm.ip1_tsoil_dbll

/-- The three attributes set by GribMapper.translate_to_rpn. -/
structure Translation where
  ip1 : Option IpCode
  nomvar : String
  unit_func : UnitFn
deriving DecidableEq, Repr

/-- GribMapper.translate_to_rpn: each try/except KeyError block becomes a
lookup with the source's fallback (emptyRule for an unknown variable,
ip1_from_level for a missing ip1 entry, "UNKN" for a missing nomvar entry,
Unit.ident for a missing unit entry). -/
def GribMapper.translate_to_rpn (gm : GribMapper) : Translation :=
  let var := (dictGet VARS gm.gribvar).getD emptyRule
  let ip1_func := (dictGet var.ip1 gm.level_type).getD Ip1Func.ip1_from_level
  let ip1 := gm.run_ip1_func ip1_func
  let nomvar := (dictGet var.nomvar gm.level_type).getD "UNKN"
  let unit_func := var.unit.getD UnitFn.ident
  { ip1 := ip1, nomvar := nomvar, unit_func := unit_func }

/-- GribMapper.has_grid. -/
def GribMapper.has_grid (gm : GribMapper) : Bool :=
  gm.msg.gridDescriptionSectionPresent == 1

/-- GribMapper.is_latlon (the source string has a trailing space). -/
def GribMapper.is_latlon (gm : GribMapper) : Bool :=
  gm.msg.gridDefinitionDescription == "Latitude/longitude "

/-- GribMapper.is_convertable. -/
def GribMapper.is_convertable (gm : GribMapper) : Bool :=
  gm.has_grid && gm.is_latlon

/-- GribMapper.is_recognized: KeyError on an unknown variable yields
False; otherwise True exactly when the level type is a key of the
variable's nomvar dict and the grid is convertible. -/
def GribMapper.is_recognized (gm : GribMapper) : Bool :=
  match dictGet VARS gm.gribvar with
  | none => false
  | some var => (dictGet var.nomvar gm.level_type).isSome && gm.is_convertable

/-- Python's f-string format {s:<w}: pad on the right with spaces to a
minimum width w; a longer string is not truncated. -/
def pyFormatLeft (s : String) (width : Nat) : String :=
  s ++ String.mk (List.replicate (width - s.length) ' ')

/-- The nomvar property: f-string {self.nomvar:<4}. -/
def GribMapper.nomvar (gm : GribMapper) : String :=
  pyFormatLeft gm.translate_to_rpn.nomvar 4

/-- GribMapper._convert_unit applied elementwise (numpy broadcasting over
the values array). -/
def GribMapper.convert_unit (gm : GribMapper) (xs : List ℚ) : List ℚ :=
  xs.map gm.translate_to_rpn.unit_func.apply

/-- np.reshape(xs, (ni, nj), order='F'): element (i, j) of the result is
xs[i + ni * j]. -/
def reshapeF (ni nj : Nat) (xs : List ℚ) : List (List ℚ) :=
  (List.range ni).map fun i => (List.range nj).map fun j => xs.getD (i + ni * j) 0

/-- The data property: convert units, reshape Fortran-order to (ni, nj),
then narrow to float32.  The narrowing map np.float32 is an external
numpy primitive and is passed in as the elementwise function float32. -/
def GribMapper.data (gm : GribMapper) (float32 : ℚ → ℚ) : List (List ℚ) :=
  (reshapeF gm.msg.Ni gm.msg.Nj (gm.convert_unit gm.msg.values)).map (List.map float32)

/-- The params dict assembled by GribMapper._fstd_meta, restricted to the
fields computed by this repository's code.  The grid-registration fields
(rmn.cxgaig / ezqkdef / ezgprm) and the dateo computed by rmn.newdate are
produced by external library calls and are left out of the embedding. -/
structure FstdMeta where
  dtype : Int
  shape : Nat × Nat × Nat
  deet : Int
  npas : Int
  nbits : Int
  datyp : Int
  ip1 : Option IpCode
  ip2 : Int
  ip3 : Int
  typvar : String
  nomvar : String
  etiket : String
  d : List (List ℚ)
deriving DecidableEq, Repr

/-- GribMapper._fstd_meta (the embedded fields). -/
def GribMapper.fstd_meta (gm : GribMapper) (float32 : ℚ → ℚ) : FstdMeta :=
  { dtype := 1
    shape := (gm.msg.Ni, gm.msg.Nj, 1)
    deet := 3600
    npas := 0
    nbits := -32
    datyp := 1
    ip1 := gm.translate_to_rpn.ip1
    ip2 := 0
    ip3 := 0
    typvar := "P "
    nomvar := gm.nomvar
    etiket := pyFormatLeft gm.etiket 12
    d := gm.data float32 }

/-- Modelled from the spec: the external writer append (rmn.fstecr of
rpnpy.librmn, not part of this repository), with the record-level rewrite
flag the caller passes.  Per the spec's interface and error taxonomy, the
store "rejects an append (e.g. conflicting duplicate key under
non-overwrite mode)": a record whose key is already present is rejected
only when rewrite is off; with rewrite on, the existing record is
rewritten in place (here the key is the whole record, so the file is
unchanged).  The store can also reject a write for environmental reasons
outside the embedding (spec WriteFailure covers any store rejection); the
explicit input fault says whether such a rejection occurs on this call.
A rejection is surfaced to the caller as an FSTDError, modelled as none. -/
def fstecr (file : List FstdMeta) (meta : FstdMeta) (rewrite fault : Bool) :
    Option (List FstdMeta) :=
  if fault then none
  else if meta ∈ file then
    if rewrite then some file else none
  else some (file ++ [meta])

/-- Observable outcome of one GribMapper.to_rpn call: whether an IOError
was raised (raised = its message), the content of the target file after
the call (none would mean the file does not exist), the _fstd_id attribute
after the call, and whether rmn.fstcloseall ran during the call. -/
structure RpnOutcome where
  raised : Option String
  target : Option (List FstdMeta)
  fstd_id : Option Nat
  closed_during : Bool
deriving Repr

def RpnOutcome.ok (r : RpnOutcome) : Bool := r.raised.isNone

/-- GribMapper.to_rpn over an explicit target-file state (none = the
target does not exist, some file = its records).  It sets the verbose and
ip_oldstyle flags from its arguments, runs translate_to_rpn, opens the
target (creating it when absent; _init_fstd_file first unlinks it when it
exists and overwrite is set), writes via fstecr with rewrite=True exactly
as the source call does, and on FSTDError raises IOError("Problem writing
rpn record") without closing the handle; on success it closes the handle
and resets _fstd_id to None.  The opened handle is modelled as 1
(rmn.fstopenall is external and assumed to succeed); fault is the
environmental write-failure input of the modelled fstecr. -/
def GribMapper.to_rpn (gm0 : GribMapper) (float32 : ℚ → ℚ)
    (target : Option (List FstdMeta)) (overwrite ip_oldstyle verbose : Bool)
    (fault : Bool := false) : RpnOutcome :=
  let gm := { gm0 with verbose := verbose, ip_oldstyle := ip_oldstyle }
  let target1 := if target.isSome && overwrite then none else target
  let file := target1.getD []
  match fstecr file (gm.fstd_meta float32) true fault with
  | none =>
      { raised := some "Problem writing rpn record", target := some file,
        fstd_id := some 1, closed_during := false }
  | some file2 =>
      { raised := none, target := some file2, fstd_id := none,
        closed_during := true }

/-- GribMapper.__del__: rmn.fstcloseall runs exactly when _fstd_id is
still truthy (the modelled handle 1). -/
def fst_del_closes (fstd_id : Option Nat) : Bool :=
  match fstd_id with
  | none => false
  | some h => h != 0

/-- The per-message body of gribtorpn.convert: the writer is called (one
to_rpn call) exactly when the field is recognized and the run is not dry;
otherwise the field is only reported. -/
def convert_field (gm0 : GribMapper) (float32 : ℚ → ℚ)
    (target : Option (List FstdMeta)) (etiket : String)
    (overwrite oldstyle verbose dry : Bool) : List RpnOutcome :=
  let gm := { gm0 with etiket := etiket }
  if gm.is_recognized && !dry then
    [gm.to_rpn float32 target overwrite oldstyle verbose]
  else
    []

/- Helper lemmas. -/

theorem dictGet_mem {α : Type} {l : List (String × α)} {k : String} {v : α}
    (h : dictGet l k = some v) : (k, v) ∈ l := by
  induction l with
  | nil => simp [dictGet] at h
  | cons p rest ih =>
    obtain ⟨k0, v0⟩ := p
    simp only [dictGet] at h
    by_cases hk : k = k0
    · rw [if_pos hk] at h
      injection h with h2
      subst hk
      subst h2
      exact List.mem_cons_self _ _
    · rw [if_neg hk] at h
      exact List.mem_cons_of_mem _ (ih h)

/-- Every mnemonic stored in the VARS table has at most 4 characters. -/
theorem VARS_nomvar_short :
    ∀ p ∈ VARS, ∀ q ∈ p.2.nomvar, q.2.length ≤ 4 := by decide

/-- Every level type with an ip1 override in the VARS table also has a
nomvar entry for the same variable. -/
theorem VARS_ip1_sub_nomvar :
    ∀ p ∈ VARS, ∀ q ∈ p.2.ip1, (dictGet p.2.nomvar q.1).isSome = true := by decide

/-- The mnemonic resolved by translate_to_rpn is never longer than 4
characters (a table entry or the sentinel "UNKN"). -/
theorem translate_nomvar_short (gm : GribMapper) :
    gm.translate_to_rpn.nomvar.length ≤ 4 := by
  unfold GribMapper.translate_to_rpn
  cases hv : dictGet VARS gm.gribvar with
  | none =>
    simp [emptyRule, dictGet]
    decide
  | some var =>
    cases hn : dictGet var.nomvar gm.level_type with
    | none =>
      simp [hn]
      decide
    | some s =>
      have hs := VARS_nomvar_short _ (dictGet_mem hv) _ (dictGet_mem hn)
      simpa [hn] using hs

/- Claim C1. -/

/-- A mapper with only a level set, for the boundary instances of the
generic encoder. -/
def gmLvl (l : ℚ) : GribMapper := { msg := { level := l } }

/-- Claim C1: with no level-encoding override, the generic encoder
ip1_from_level selects pressure kind (2) exactly when 0 <= level < 1101
and arbitrary kind (3) otherwise; at the boundary, level 1101 selects
arbitrary kind and level 1100.999 pressure kind. -/
theorem ip1_from_level_kind_selection :
    (∀ gm : GribMapper,
      (gm.ip1_from_level.kind = IP_KIND_PRESSURE ↔ 0 ≤ gm.level ∧ gm.level < 1101) ∧
      (gm.ip1_from_level.kind = IP_KIND_ARBITRARY ↔ ¬(0 ≤ gm.level ∧ gm.level < 1101))) ∧
    (gmLvl 1101).ip1_from_level.kind = IP_KIND_ARBITRARY ∧
    (gmLvl 1100.999).ip1_from_level.kind = IP_KIND_PRESSURE ∧
    (gmLvl (-1)).ip1_from_level.kind = IP_KIND_ARBITRARY := by
  refine ⟨fun gm => ?_, ?_, ?_, ?_⟩
  · by_cases h : 0 ≤ gm.level ∧ gm.level < 1101 <;>
      simp [GribMapper.ip1_from_level, GribMapper.get_ip_code, convertIp, h,
        IP_KIND_PRESSURE, IP_KIND_ARBITRARY]
  · rw [GribMapper.ip1_from_level,
      if_neg (by norm_num [gmLvl, GribMapper.level])]
    rfl
  · rw [GribMapper.ip1_from_level,
      if_pos (by norm_num [gmLvl, GribMapper.level])]
    rfl
  · rw [GribMapper.ip1_from_level,
      if_neg (by norm_num [gmLvl, GribMapper.level])]
    rfl

/- Translation lemmas for the three ip1 overrides. -/

theorem tsoil_runs_sentinel (gm : GribMapper) (h2 : gm.level_type = LVL_DBLL) :
    gm.ip1_tsoil_dbll = some (gm.get_ip_code 1.0) := by
  rw [GribMapper.ip1_tsoil_dbll, if_pos h2]

theorem translate_soilw_dbll (gm : GribMapper)
    (h1 : gm.gribvar = "Soil moisture content") (h2 : gm.level_type = LVL_DBLL) :
    gm.translate_to_rpn.ip1 =
      some (gm.get_ip_code (gm.msg.scaleFactorOfSecondFixedSurface : ℚ)) := by
  unfold GribMapper.translate_to_rpn
  rw [h1, h2]
  rfl

theorem translate_snod_sfc (gm : GribMapper)
    (h1 : gm.gribvar = "Snow depth") (h2 : gm.level_type = LVL_SFC) :
    gm.translate_to_rpn.ip1 = some (gm.get_ip_code 1.0) := by
  unfold GribMapper.translate_to_rpn
  rw [h1, h2]
  rfl

theorem translate_tsoil_dbll (gm : GribMapper)
    (h1 : gm.gribvar = "Soil Temperature") (h2 : gm.level_type = LVL_DBLL) :
    gm.translate_to_rpn.ip1 = some (gm.get_ip_code 1.0) := by
  unfold GribMapper.translate_to_rpn
  rw [h1, h2]
  exact tsoil_runs_sentinel gm h2

/- Claim C2. -/

/-- A concrete soil-moisture field at depthBelowLandLayer with the given
second-surface scale factor. -/
def gmSoilw (f : Int) : GribMapper :=
  { msg := { name := "Soil moisture content", typeOfLevel := LVL_DBLL,
             level := 0, scaleFactorOfSecondFixedSurface := f } }

/-- Claim C2: for "Soil moisture content" at depthBelowLandLayer the
packed level identifier is computed from scaleFactorOfSecondFixedSurface
(arbitrary kind), not from level_value; two such fields with equal
level_value and scale factors 1 and 2 get different packed codes. -/
theorem soilw_level_tracks_scale_factor :
    (∀ gm : GribMapper,
      gm.gribvar = "Soil moisture content" → gm.level_type = LVL_DBLL →
      gm.translate_to_rpn.ip1 =
        some (gm.get_ip_code (gm.msg.scaleFactorOfSecondFixedSurface : ℚ))) ∧
    (∀ gm1 gm2 : GribMapper,
      gm1.gribvar = "Soil moisture content" → gm1.level_type = LVL_DBLL →
      gm2.gribvar = "Soil moisture content" → gm2.level_type = LVL_DBLL →
      gm1.level = gm2.level →
      gm1.msg.scaleFactorOfSecondFixedSurface = 1 →
      gm2.msg.scaleFactorOfSecondFixedSurface = 2 →
      gm1.translate_to_rpn.ip1 ≠ gm2.translate_to_rpn.ip1) ∧
    (gmSoilw 1).translate_to_rpn.ip1 ≠ (gmSoilw 2).translate_to_rpn.ip1 := by
  have hmain : ∀ gm1 gm2 : GribMapper,
      gm1.gribvar = "Soil moisture content" → gm1.level_type = LVL_DBLL →
      gm2.gribvar = "Soil moisture content" → gm2.level_type = LVL_DBLL →
      gm1.level = gm2.level →
      gm1.msg.scaleFactorOfSecondFixedSurface = 1 →
      gm2.msg.scaleFactorOfSecondFixedSurface = 2 →
      gm1.translate_to_rpn.ip1 ≠ gm2.translate_to_rpn.ip1 := by
    intro gm1 gm2 h1 h2 h3 h4 _ hf1 hf2 heq
    rw [translate_soilw_dbll gm1 h1 h2, translate_soilw_dbll gm2 h3 h4,
      hf1, hf2] at heq
    norm_num [GribMapper.get_ip_code, convertIp, IpCode.mk.injEq] at heq
  exact ⟨fun gm h1 h2 => translate_soilw_dbll gm h1 h2, hmain,
    hmain (gmSoilw 1) (gmSoilw 2) rfl rfl rfl rfl rfl rfl rfl⟩

/- Claim C3. -/

/-- Claim C3: for "Snow depth" at surface and "Soil Temperature" at
depthBelowLandLayer the packed level identifier is the encoding of the
fixed sentinel level 1.0; under the same encoding mode two fields of the
same variable and level type get identical packed codes regardless of
level_value. -/
theorem sentinel_constant_level_codes :
    (∀ gm : GribMapper, gm.gribvar = "Snow depth" → gm.level_type = LVL_SFC →
      gm.translate_to_rpn.ip1 = some (gm.get_ip_code 1.0)) ∧
    (∀ gm : GribMapper,
      gm.gribvar = "Soil Temperature" → gm.level_type = LVL_DBLL →
      gm.translate_to_rpn.ip1 = some (gm.get_ip_code 1.0)) ∧
    (∀ gm1 gm2 : GribMapper, gm1.ip_oldstyle = gm2.ip_oldstyle →
      gm1.gribvar = "Snow depth" → gm1.level_type = LVL_SFC →
      gm2.gribvar = "Snow depth" → gm2.level_type = LVL_SFC →
      gm1.translate_to_rpn.ip1 = gm2.translate_to_rpn.ip1) ∧
    (∀ gm1 gm2 : GribMapper, gm1.ip_oldstyle = gm2.ip_oldstyle →
      gm1.gribvar = "Soil Temperature" → gm1.level_type = LVL_DBLL →
      gm2.gribvar = "Soil Temperature" → gm2.level_type = LVL_DBLL →
      gm1.translate_to_rpn.ip1 = gm2.translate_to_rpn.ip1) := by
  refine ⟨fun gm h1 h2 => translate_snod_sfc gm h1 h2,
    fun gm h1 h2 => translate_tsoil_dbll gm h1 h2, ?_, ?_⟩
  · intro gm1 gm2 hmode h1 h2 h3 h4
    rw [translate_snod_sfc gm1 h1 h2, translate_snod_sfc gm2 h3 h4]
    simp [GribMapper.get_ip_code, convertIp, hmode]
  · intro gm1 gm2 hmode h1 h2 h3 h4
    rw [translate_tsoil_dbll gm1 h1 h2, translate_tsoil_dbll gm2 h3 h4]
    simp [GribMapper.get_ip_code, convertIp, hmode]

/- Claim C4. -/

/-- translate_to_rpn written out as one record (definitional). -/
theorem translate_unfolded (gm : GribMapper) :
    gm.translate_to_rpn =
      { ip1 := gm.run_ip1_func
          ((dictGet ((dictGet VARS gm.gribvar).getD emptyRule).ip1
            gm.level_type).getD .ip1_from_level),
        nomvar := (dictGet ((dictGet VARS gm.gribvar).getD emptyRule).nomvar
          gm.level_type).getD "UNKN",
        unit_func := ((dictGet VARS gm.gribvar).getD emptyRule).unit.getD .ident } :=
  rfl

/-- A "Temperature" field at level type meanSea: the variable is in the
table, its level type is not. -/
def gmTempMsl : GribMapper :=
  { msg := { name := "Temperature", typeOfLevel := LVL_MSL } }

/-- Claim C4, counterexample: "Temperature" at level type meanSea resolves
to the sentinel mnemonic "UNKN", yet the unit converter kept by
translate_to_rpn is the variable's kelvin-to-celsius converter, not the
identity: it sends 0 to -273.15. -/
theorem unknown_level_type_keeps_converter :
    gmTempMsl.translate_to_rpn.nomvar = "UNKN" ∧
    gmTempMsl.translate_to_rpn.unit_func = UnitFn.K_to_C ∧
    gmTempMsl.translate_to_rpn.unit_func.apply 0 = -273.15 ∧
    UnitFn.ident.apply 0 = 0 ∧ ((-273.15 : ℚ) ≠ 0) := by
  have h2 : gmTempMsl.translate_to_rpn.unit_func = UnitFn.K_to_C := rfl
  refine ⟨rfl, h2, ?_, rfl, by norm_num⟩
  rw [h2]
  show Unit.K_to_C 0 = -273.15
  norm_num [Unit.K_to_C]

/-- Claim C4 (amended): a field whose variable name is absent from VARS,
or whose level type has no entry in the variable's nomvar map, resolves to
the sentinel mnemonic "UNKN" and the generic level encoder, is not
recognized, and produces zero writer calls; its unit converter is the
identity when the variable name is absent, and the variable's own
converter (identity only when the variable declares none) when the
variable is present with an unmapped level type. -/
theorem not_required_fallback (gm : GribMapper) (float32 : ℚ → ℚ)
    (target : Option (List FstdMeta)) (etiket : String)
    (overwrite oldstyle verbose dry : Bool)
    (h : dictGet VARS gm.gribvar = none ∨
      ∃ var, dictGet VARS gm.gribvar = some var ∧
        dictGet var.nomvar gm.level_type = none) :
    gm.translate_to_rpn.nomvar = "UNKN" ∧
    gm.translate_to_rpn.ip1 = some gm.ip1_from_level ∧
    gm.is_recognized = false ∧
    convert_field gm float32 target etiket overwrite oldstyle verbose dry = [] ∧
    (dictGet VARS gm.gribvar = none →
      gm.translate_to_rpn.unit_func = UnitFn.ident) ∧
    (∀ var, dictGet VARS gm.gribvar = some var →
      gm.translate_to_rpn.unit_func = var.unit.getD UnitFn.ident) := by
  rcases h with hv | ⟨var, hv, hn⟩
  · have hv2 : dictGet VARS gm.msg.name = none := hv
    refine ⟨?_, ?_, ?_, ?_, fun _ => ?_, fun var hv3 => ?_⟩
    · rw [translate_unfolded, hv]; rfl
    · rw [translate_unfolded, hv]; rfl
    · simp [GribMapper.is_recognized, hv]
    · simp [convert_field, GribMapper.is_recognized, GribMapper.gribvar, hv2]
    · rw [translate_unfolded, hv]; rfl
    · rw [hv] at hv3; cases hv3
  · have hv2 : dictGet VARS gm.msg.name = some var := hv
    have hn2 : dictGet var.nomvar gm.msg.typeOfLevel = none := hn
    have hip1 : dictGet var.ip1 gm.level_type = none := by
      cases hf : dictGet var.ip1 gm.level_type with
      | none => rfl
      | some f =>
        have hmem := VARS_ip1_sub_nomvar _ (dictGet_mem hv) _ (dictGet_mem hf)
        rw [hn] at hmem
        simp at hmem
    refine ⟨?_, ?_, ?_, ?_, fun hcontra => ?_, fun var2 hv3 => ?_⟩
    · rw [translate_unfolded, hv]
      simp [hn]
    · rw [translate_unfolded, hv]
      simp [hip1, GribMapper.run_ip1_func]
    · simp [GribMapper.is_recognized, hv, hn]
    · simp [convert_field, GribMapper.is_recognized, GribMapper.gribvar,
        GribMapper.level_type, hv2, hn2]
    · rw [hv] at hcontra; cases hcontra
    · rw [hv] at hv3
      injection hv3 with he
      subst he
      rw [translate_unfolded, hv]
      rfl

/-- Claim C4, witness: the amended fallback theorem at the concrete field
"Temperature" at meanSea. -/
theorem not_required_fallback_witness :
    gmTempMsl.translate_to_rpn.nomvar = "UNKN" ∧
    gmTempMsl.translate_to_rpn.ip1 = some gmTempMsl.ip1_from_level ∧
    gmTempMsl.is_recognized = false ∧
    convert_field gmTempMsl Unit.ident none "G092V3N" false false false false = [] ∧
    (dictGet VARS gmTempMsl.gribvar = none →
      gmTempMsl.translate_to_rpn.unit_func = UnitFn.ident) ∧
    (∀ var, dictGet VARS gmTempMsl.gribvar = some var →
      gmTempMsl.translate_to_rpn.unit_func = var.unit.getD UnitFn.ident) :=
  not_required_fallback gmTempMsl Unit.ident none "G092V3N" false false false false
    (Or.inr ⟨_, rfl, rfl⟩)

/- Claim C5. -/

/-- A recognized variable and level type on a Mercator grid. -/
def gmTempMercator : GribMapper :=
  { msg := { name := "Temperature", typeOfLevel := LVL_SFC,
             gridDefinitionDescription := "Mercator" } }

/-- A recognized variable and level type with no grid description
section. -/
def gmTempNoGridSec : GribMapper :=
  { msg := { name := "Temperature", typeOfLevel := LVL_SFC,
             gridDescriptionSectionPresent := 0 } }

/-- Claim C5: is_recognized is true exactly when both the variable name
and the level type resolve in VARS and the grid is convertible (grid
section present and lat/lon projection); concretely, a resolvable
"Temperature" field on a Mercator grid, or one without a grid description
section, is rejected. -/
theorem is_recognized_iff_resolved_and_convertable :
    (∀ gm : GribMapper,
      gm.is_recognized = true ↔
        ((∃ var, dictGet VARS gm.gribvar = some var ∧
            (dictGet var.nomvar gm.level_type).isSome = true) ∧
          gm.is_convertable = true)) ∧
    (∀ gm : GribMapper, gm.is_convertable = (gm.has_grid && gm.is_latlon)) ∧
    gmTempMercator.is_recognized = false ∧
    gmTempNoGridSec.is_recognized = false ∧
    (∃ var, dictGet VARS gmTempMercator.gribvar = some var ∧
      (dictGet var.nomvar gmTempMercator.level_type).isSome = true) := by
  refine ⟨fun gm => ?_, fun gm => rfl, rfl, rfl, ⟨_, rfl, rfl⟩⟩
  unfold GribMapper.is_recognized
  cases hv : dictGet VARS gm.gribvar with
  | none => simp
  | some var => simp

/- Claim C9. -/

/-- Claim C9: each registered unit conversion computes exactly its stated
formula (Python float arithmetic embedded as exact rationals), and in
particular kelvinToCelsius(273.15) = 0, metersPerSecondToKnots(1) = 1.9438
and pascalsToHectopascals(101325) = 1013.25. -/
theorem unit_conversion_formulas :
    (∀ x : ℚ,
      Unit.ident x = x ∧
      Unit.m_per_s_to_kt x = x * 1.9438 ∧
      Unit.K_to_C x = x - 273.15 ∧
      Unit.m_to_cm x = x * 100 ∧
      Unit.gpm_to_dam x = x * 0.1 ∧
      Unit.Pa_to_hPa x = x * 0.01) ∧
    Unit.K_to_C 273.15 = 0 ∧
    Unit.m_per_s_to_kt 1 = 1.9438 ∧
    Unit.Pa_to_hPa 101325 = 1013.25 := by
  refine ⟨fun x => ⟨rfl, rfl, rfl, rfl, rfl, rfl⟩, ?_, ?_, ?_⟩ <;>
    norm_num [Unit.K_to_C, Unit.m_per_s_to_kt, Unit.Pa_to_hPa]

/- Claim C6. -/

/-- Claim C6: contrary to the claimed write failure, the source passes
rewrite=True to fstecr while the overwrite argument only controls
pre-unlinking of the target, so two sequential to_rpn runs over the same
input with overwrite=false (and no environmental fault) both succeed: the
second run's write rewrites the matching record in place, raises no
IOError, and leaves the target holding one copy of the record. -/
theorem second_run_rewrites_in_place :
    ∀ (gm : GribMapper) (float32 : ℚ → ℚ) (oldstyle verbose : Bool),
      (gm.to_rpn float32 none false oldstyle verbose false).raised = none ∧
      (gm.to_rpn float32 none false oldstyle verbose false).target =
        some [({ gm with verbose := verbose, ip_oldstyle := oldstyle }).fstd_meta float32] ∧
      (gm.to_rpn float32 (gm.to_rpn float32 none false oldstyle verbose false).target
          false oldstyle verbose false).raised = none ∧
      (gm.to_rpn float32 (gm.to_rpn float32 none false oldstyle verbose false).target
          false oldstyle verbose false).target =
        some [({ gm with verbose := verbose, ip_oldstyle := oldstyle }).fstd_meta float32] := by
  intro gm float32 oldstyle verbose
  simp [GribMapper.to_rpn, fstecr]

/- Claim C7. -/

/-- A field whose caller-supplied etiket has 13 characters. -/
def gmEtiketLong : GribMapper :=
  { msg := { name := "Temperature", typeOfLevel := LVL_SFC },
    etiket := "ABCDEFGHIJKLM" }

/-- Claim C7, counterexample: a 13-character caller-supplied etiket is
stored unchanged, with length 13 instead of exactly 12 — the f-string
format pads to a minimum width but never truncates. -/
theorem long_etiket_not_truncated :
    (gmEtiketLong.fstd_meta Unit.ident).etiket = "ABCDEFGHIJKLM" ∧
    (gmEtiketLong.fstd_meta Unit.ident).etiket.length = 13 ∧
    (gmEtiketLong.fstd_meta Unit.ident).etiket.length ≠ 12 := by
  refine ⟨rfl, rfl, by decide⟩

theorem pyFormatLeft_length (s : String) (w : Nat) :
    (pyFormatLeft s w).length = max w s.length := by
  rw [pyFormatLeft, String.length_append]
  show s.length + (List.replicate (w - s.length) ' ').length = max w s.length
  rw [List.length_replicate]
  omega

/-- Claim C7 (amended): the stored mnemonic is the resolved mnemonic
padded on the right to exactly 4 characters (every resolved mnemonic has
at most 4 characters); the stored etiket is the caller-supplied etiket
padded on the right to a minimum width of 12 — exactly 12 characters when
the input has at most 12, and the unchanged longer string otherwise
(padding, never truncation). -/
theorem padded_meta_field_lengths :
    ∀ (gm : GribMapper) (float32 : ℚ → ℚ),
      (gm.fstd_meta float32).nomvar =
        pyFormatLeft gm.translate_to_rpn.nomvar 4 ∧
      (gm.fstd_meta float32).nomvar.length = 4 ∧
      (gm.fstd_meta float32).etiket = pyFormatLeft gm.etiket 12 ∧
      (gm.fstd_meta float32).etiket.length = max 12 gm.etiket.length ∧
      (gm.fstd_meta float32).etiket = gm.etiket ++
        String.mk (List.replicate (12 - gm.etiket.length) ' ') := by
  intro gm float32
  refine ⟨rfl, ?_, rfl, ?_, rfl⟩
  · show (pyFormatLeft gm.translate_to_rpn.nomvar 4).length = 4
    rw [pyFormatLeft_length]
    have := translate_nomvar_short gm
    omega
  · exact pyFormatLeft_length gm.etiket 12

/- Claim C8. -/

theorem index_lt {i j ni nj : Nat} (hi : i < ni) (hj : j < nj) :
    i + ni * j < ni * nj := by
  calc i + ni * j < ni + ni * j := by omega
    _ = ni * (j + 1) := by ring
    _ ≤ ni * nj := Nat.mul_le_mul_left _ (by omega)

theorem getD_range_map {α : Type} (n : Nat) (f : Nat → α) (d : α) (i : Nat)
    (h : i < n) : ((List.range n).map f).getD i d = f i := by
  rw [List.getD_eq_getElem?_getD, List.getElem?_map, List.getElem?_range h]
  rfl

theorem getD_map_lt {α β : Type} (xs : List α) (f : α → β) (i : Nat)
    (h : i < xs.length) (d : α) (d2 : β) :
    (xs.map f).getD i d2 = f (xs.getD i d) := by
  rw [List.getD_eq_getElem?_getD, List.getD_eq_getElem?_getD,
    List.getElem?_map, List.getElem?_eq_getElem h]
  rfl

/-- Claim C8: the assembled data array is the resolved unit converter
applied to every element of the raw values, reshaped to (ni, nj) in the
source's element ordering (the flat GRIB values enumerate i fastest, which
the Fortran-order reshape realizes: element (i, j) is flat element
i + ni*j), then narrowed elementwise to 32-bit float — the conversion is
applied before the narrowing map float32. -/
theorem data_is_converted_reshaped_narrowed (gm : GribMapper)
    (float32 : ℚ → ℚ) (i j : Nat)
    (hlen : gm.msg.values.length = gm.msg.Ni * gm.msg.Nj)
    (hi : i < gm.msg.Ni) (hj : j < gm.msg.Nj) :
    ((gm.data float32).getD i []).getD j 0 =
      float32 (gm.translate_to_rpn.unit_func.apply
        (gm.msg.values.getD (i + gm.msg.Ni * j) 0)) ∧
    (gm.data float32).length = gm.msg.Ni ∧
    ∀ row ∈ gm.data float32, row.length = gm.msg.Nj := by
  refine ⟨?_, ?_, ?_⟩
  · rw [GribMapper.data, reshapeF, GribMapper.convert_unit, List.map_map,
      getD_range_map _ _ _ _ hi]
    have hrow : j < ((List.range gm.msg.Nj).map
        (fun k => (gm.msg.values.map gm.translate_to_rpn.unit_func.apply).getD
          (i + gm.msg.Ni * k) 0)).length := by
      simpa using hj
    rw [Function.comp_apply, getD_map_lt _ _ _ hrow 0 0,
      getD_range_map _ _ _ _ hj]
    have hidx : i + gm.msg.Ni * j < gm.msg.values.length := by
      rw [hlen]; exact index_lt hi hj
    rw [getD_map_lt _ _ _ hidx 0 0]
  · simp [GribMapper.data, reshapeF]
  · intro row hrow
    simp only [GribMapper.data, reshapeF, List.map_map, List.mem_map] at hrow
    obtain ⟨k, _, hk⟩ := hrow
    simp [← hk]

/-- A concrete 2x1 "Temperature" field for the data-assembly witness. -/
def gmData : GribMapper :=
  { msg := { name := "Temperature", typeOfLevel := LVL_SFC,
             values := [300, 280], Ni := 2, Nj := 1 } }

/-- Claim C8, witness: the data-assembly theorem at the concrete 2x1
field, element (0, 0). -/
theorem data_is_converted_reshaped_narrowed_witness :
    ((gmData.data Unit.ident).getD 0 []).getD 0 0 =
      Unit.ident (gmData.translate_to_rpn.unit_func.apply
        (gmData.msg.values.getD (0 + gmData.msg.Ni * 0) 0)) ∧
    (gmData.data Unit.ident).length = gmData.msg.Ni ∧
    ∀ row ∈ gmData.data Unit.ident, row.length = gmData.msg.Nj :=
  data_is_converted_reshaped_narrowed gmData Unit.ident 0 0 (by decide)
    (by decide) (by decide)

/- Claim C10. -/

/-- Claim C10: when the write primitive fails inside to_rpn (reachable:
any call with the environmental fault input set fails), the method raises
IOError("Problem writing rpn record"), fstcloseall does not run and
_fstd_id keeps the open handle, which only __del__ would close; on the
success path fstcloseall runs and _fstd_id is reset to None before to_rpn
returns (so __del__ closes nothing). -/
theorem to_rpn_handle_release :
    ∀ (gm : GribMapper) (float32 : ℚ → ℚ) (target : Option (List FstdMeta))
      (overwrite oldstyle verbose fault : Bool),
      ((gm.to_rpn float32 target overwrite oldstyle verbose fault).raised.isSome = true →
        (gm.to_rpn float32 target overwrite oldstyle verbose fault).raised =
          some "Problem writing rpn record" ∧
        (gm.to_rpn float32 target overwrite oldstyle verbose fault).fstd_id = some 1 ∧
        (gm.to_rpn float32 target overwrite oldstyle verbose fault).closed_during = false ∧
        fst_del_closes
          (gm.to_rpn float32 target overwrite oldstyle verbose fault).fstd_id = true) ∧
      ((gm.to_rpn float32 target overwrite oldstyle verbose fault).raised = none →
        (gm.to_rpn float32 target overwrite oldstyle verbose fault).fstd_id = none ∧
        (gm.to_rpn float32 target overwrite oldstyle verbose fault).closed_during = true ∧
        fst_del_closes
          (gm.to_rpn float32 target overwrite oldstyle verbose fault).fstd_id = false) ∧
      (fault = true →
        (gm.to_rpn float32 target overwrite oldstyle verbose fault).raised.isSome = true) := by
  intro gm float32 target overwrite oldstyle verbose fault
  rw [GribMapper.to_rpn]
  cases hf : fstecr ((if target.isSome && overwrite then none else target).getD [])
      (({ gm with verbose := verbose, ip_oldstyle := oldstyle }).fstd_meta float32)
      true fault with
  | none => simp [hf, fst_del_closes]
  | some file2 =>
    refine ⟨by simp, fun _ => ⟨rfl, rfl, rfl⟩, fun hfault => ?_⟩
    subst hfault
    simp [fstecr] at hf

end Gribs
